import Mathlib

/-!
Verification development for the self-healing element-location core of the
NTDPFrontOffice test-suite repository.

The embedding covers:

* `SelfHealingLocator` (src/utils/SelfHealingLocator.ts): `findElement`,
  `smartLocator`, `findByText`, `findInput`, `findButton`.
* `EnhancedSelfHealingLocator` (embedded in src/tests/zap-security.spec.ts):
  strategy statistics (`recordSuccess`, `recordFailure`, `getSuccessRate`,
  `getLastUsed`, `getSortedStrategies`), the adaptive resolver
  `smartLocatorWithLearning`, the similarity-recovery helpers
  (`isSimilarElement`, `findByVisualSimilarity`, `findByAttributeSimilarity`,
  `findByPositionalContext`, `tryAIRecovery`) and the learning-data
  export/import pair.

Modelling conventions:

* The Playwright page is abstracted as a `PageOracle`: `visibleWithin q t`
  says whether waiting on the query to become visible within the timeout succeeds,
  `allElements` is the element list the page enumerates for a wildcard query
  (an element is its fingerprint data plus a visibility bit for the 1000 ms
  waits used during recovery), and `resolveQueryFp` is the fingerprint that
  `getElementFingerprint` reads off a located element.
* JavaScript numbers are embedded as rationals (`Rat`); timestamps
  (`new Date()`) as natural-number milliseconds.  JS runtime values that can
  be either a `Date` or a string (the `lastUsed` field after a JSON import)
  are the two-constructor type `JSTime`.
* Thrown errors are `Except.error` carrying the interpolated message string.
* Each resolver also returns the list of page queries it actually issued
  (the waits performed), so "no further query is issued" claims are statable.
-/

/-- A declarative element query, one per Playwright lookup the source uses. -/
inductive LocQuery where
  | role (r : String) (accName : String)
  | testId (t : String)
  | label (l : String)
  | placeholder (p : String)
  | text (t : String)
  | css (sel : String)
  | xpath (sel : String)
deriving DecidableEq, Repr

/-- Element attribute map; a JS `Record<string,string>` as an assoc list. -/
abbrev AttrMap := List (String × String)

/-- `attrs[k]` in JS: first binding of `k`, with the empty string standing for
`undefined` (both are falsy, and the source only ever branches on truthiness
or compares for strict equality, so the two are observationally equal). -/
def attrGet (attrs : AttrMap) (k : String) : String :=
  ((attrs.find? (fun p => p.1 == k)).map (fun p => p.2)).getD ("")

/-- Element fingerprint captured by `getElementFingerprint`. -/
structure ElementFingerprint where
  tag : String
  attributes : AttrMap
  textContent : Option String
  position : Option (Rat × Rat)
  dimensions : Option (Rat × Rat)
deriving DecidableEq, Repr

/-- A page element as enumerated by `page.locator(...).all()`: its
fingerprint data plus whether a `waitFor` visibility check on it succeeds. -/
structure PageElement where
  fp : ElementFingerprint
  visible : Bool
deriving DecidableEq, Repr

/-- The Page Access Boundary (the Playwright page, abstracted). -/
structure PageOracle where
  /-- Does waiting on the query to become visible within the timeout succeed? -/
  visibleWithin : LocQuery → Nat → Bool
  /-- The full element enumeration of the page (wildcard query). -/
  allElements : List PageElement
  /-- Fingerprint read off the element a query resolves to, if any. -/
  resolveQueryFp : LocQuery → Option ElementFingerprint

/-- A `Locator` value returned to the caller: either a query-built locator or
a handle obtained from enumerating page elements. -/
inductive Locator where
  | query (q : LocQuery)
  | handle (e : ElementFingerprint)
deriving DecidableEq, Repr

/-- Result of one resolver call: the returned locator or thrown message, plus
the list of page queries that were actually waited on, in order. -/
structure FindResult where
  res : Except String Locator
  issued : List LocQuery
deriving Repr

instance : DecidableEq (Except String Locator) := fun a b => by
  cases a <;> cases b
  case error.error x y => exact decidable_of_iff (x = y) (by simp)
  case ok.ok x y => exact decidable_of_iff (x = y) (by simp)
  all_goals exact isFalse (fun h => Except.noConfusion h)

instance : DecidableEq FindResult := fun a b => by
  cases a; cases b
  exact decidable_of_iff (_ ∧ _) (Iff.symm (FindResult.mk.injEq _ _ _ _).to_iff)

/-- Shared attempt loop: wait on each query in order with timeout `t`; stop at
the first visible match.  Returns the queries issued and the first hit.
This is the `for ... try ... catch` pattern used by every resolver of
`SelfHealingLocator`. -/
def tryQueries (o : PageOracle) (t : Nat) : List LocQuery → List LocQuery × Option LocQuery
  | [] => ([], none)
  | q :: rest =>
    if o.visibleWithin q t then ([q], some q)
    else
      let r := tryQueries o t rest
      (q :: r.1, r.2)

namespace SelfHealingLocator

/-- `SelfHealingLocator.findElement`: try the primary CSS selector, then each
fallback selector, each with a 5000 ms visibility wait; throw when all fail.
(The source writes the primary attempt and the fallback loop separately; the
two fuse into one loop over `primary :: fallbacks` with identical behavior.) -/
def findElement (o : PageOracle) (primarySelector : String)
    (fallbackSelectors : List String) (identifier : String) : FindResult :=
  let qs := LocQuery.css primarySelector :: fallbackSelectors.map LocQuery.css
  let r := tryQueries o 5000 qs
  match r.2 with
  | some q => { res := Except.ok (Locator.query q), issued := r.1 }
  | none =>
    { res := Except.error ("❌ All selectors failed for " ++ identifier)
      issued := r.1 }

/-- Option bag for `smartLocator`. -/
structure SmartOptions where
  role : Option String := none
  text : Option String := none
  placeholder : Option String := none
  label : Option String := none
  testId : Option String := none
  css : Option String := none
  xpath : Option String := none
  identifier : String
deriving DecidableEq, Repr

/-- The strategy list `smartLocator` builds, in source order: role+text,
testId, label, placeholder, text, css, xpath — each pushed only when the
corresponding option is set. -/
def smartStrategies (opts : SmartOptions) : List LocQuery :=
  (match opts.role, opts.text with
   | some r, some t => [LocQuery.role r t]
   | _, _ => []) ++
  (match opts.testId with | some t => [LocQuery.testId t] | none => []) ++
  (match opts.label with | some l => [LocQuery.label l] | none => []) ++
  (match opts.placeholder with | some p => [LocQuery.placeholder p] | none => []) ++
  (match opts.text with | some t => [LocQuery.text t] | none => []) ++
  (match opts.css with | some c => [LocQuery.css c] | none => []) ++
  (match opts.xpath with | some x => [LocQuery.xpath x] | none => [])

/-- `SelfHealingLocator.smartLocator`: try each built strategy in order with a
5000 ms wait; throw when all fail. -/
def smartLocator (o : PageOracle) (opts : SmartOptions) : FindResult :=
  let r := tryQueries o 5000 (smartStrategies opts)
  match r.2 with
  | some q => { res := Except.ok (Locator.query q), issued := r.1 }
  | none =>
    { res := Except.error ("❌ All strategies failed for " ++ opts.identifier)
      issued := r.1 }

/-- `SelfHealingLocator.findByText`: primary text then fallback texts, 5000 ms
waits, first visible match wins. -/
def findByText (o : PageOracle) (primaryText : String)
    (fallbackTexts : List String) (identifier : String) : FindResult :=
  let r := tryQueries o 5000 ((primaryText :: fallbackTexts).map LocQuery.text)
  match r.2 with
  | some q => { res := Except.ok (Locator.query q), issued := r.1 }
  | none =>
    { res := Except.error ("❌ Could not find " ++ identifier ++ " by any text pattern")
      issued := r.1 }

/-- Option bag for `findInput`. -/
structure InputOptions where
  type : Option String := none
  name : Option String := none
  id : Option String := none
  placeholder : Option String := none
  label : Option String := none
  ariaLabel : Option String := none
  identifier : String
deriving DecidableEq, Repr

/-- The CSS selector list `findInput` builds from its options, in order. -/
def inputSelectors (opts : InputOptions) : List String :=
  (match opts.type, opts.name with
   | some t, some n => ["input[type=\"" ++ t ++ "\"][name*=\"" ++ n ++ "\"]"]
   | _, _ => []) ++
  (match opts.id with | some i => ["input[id*=\"" ++ i ++ "\"]"] | none => []) ++
  (match opts.name with | some n => ["input[name*=\"" ++ n ++ "\"]"] | none => []) ++
  (match opts.type with | some t => ["input[type=\"" ++ t ++ "\"]"] | none => [])

/-- `SelfHealingLocator.findInput`: direct placeholder lookup, then direct
label lookup (each a 5000 ms wait when the option is set), then the CSS
selector loop; throw when everything fails. -/
def findInput (o : PageOracle) (opts : InputOptions) : FindResult :=
  let direct : List LocQuery :=
    (match opts.placeholder with | some p => [LocQuery.placeholder p] | none => []) ++
    (match opts.label with | some l => [LocQuery.label l] | none => [])
  let qs := direct ++ (inputSelectors opts).map LocQuery.css
  let r := tryQueries o 5000 qs
  match r.2 with
  | some q => { res := Except.ok (Locator.query q), issued := r.1 }
  | none =>
    { res := Except.error ("❌ Could not find input " ++ opts.identifier)
      issued := r.1 }

/-- Option bag for `findButton`. -/
structure ButtonOptions where
  text : Option String := none
  type : Option String := none
  ariaLabel : Option String := none
  testId : Option String := none
  identifier : String
deriving DecidableEq, Repr

/-- The query list `findButton` tries in order: role=button with the text,
testId, text content, `button[type=...]` — each only when the option is set. -/
def buttonQueries (opts : ButtonOptions) : List LocQuery :=
  (match opts.text with | some t => [LocQuery.role ("button") t] | none => []) ++
  (match opts.testId with | some t => [LocQuery.testId t] | none => []) ++
  (match opts.text with | some t => [LocQuery.text t] | none => []) ++
  (match opts.type with
   | some t => [LocQuery.css ("button[type=\"" ++ t ++ "\"]")]
   | none => [])

/-- `SelfHealingLocator.findButton`: try the built queries in order with
5000 ms waits; throw when all fail. -/
def findButton (o : PageOracle) (opts : ButtonOptions) : FindResult :=
  let r := tryQueries o 5000 (buttonQueries opts)
  match r.2 with
  | some q => { res := Except.ok (Locator.query q), issued := r.1 }
  | none =>
    { res := Except.error ("❌ Could not find button " ++ opts.identifier)
      issued := r.1 }

end SelfHealingLocator

open SelfHealingLocator

/-- Concrete oracle for witnesses: only the CSS query `#b` ever turns visible. -/
def oracleOnlyB : PageOracle :=
  { visibleWithin := fun q _ => q == LocQuery.css ("#b")
    allElements := []
    resolveQueryFp := fun _ => none }

/-- Concrete oracle for witnesses: only the placeholder query `P` turns
visible. -/
def oraclePh : PageOracle :=
  { visibleWithin := fun q _ => q == LocQuery.placeholder ("P")
    allElements := []
    resolveQueryFp := fun _ => none }

/-- Option bag exercising the placeholder strategy of `smartLocator`. -/
def optsPh : SmartOptions :=
  { label := some ("L"), placeholder := some ("P"), text := some ("T"),
    identifier := ("tgt") }

/-- Concrete oracle on which nothing is ever visible. -/
def oracleNone : PageOracle :=
  { visibleWithin := fun _ _ => false
    allElements := []
    resolveQueryFp := fun _ => none }

/-! ## EnhancedSelfHealingLocator: state and statistics -/

/-- A JS runtime value that is either a `Date` (millisecond timestamp) or a
string.  `lastUsed` holds a `Date` when written by `recordSuccess` and a
string after a JSON `importLearningData` round trip. -/
inductive JSTime where
  | date (ms : Nat)
  | str (s : String)
deriving DecidableEq, Repr

/-- Milliseconds of a `JSTime` as used by `.getTime()` during sorting.  On a
real string value JS would throw a `TypeError`; every state reachable through
`recordSuccess` stores `Date`s only, so the string branch (modelled as 0) is
never exercised by the claims. -/
def jsTimeMs : JSTime → Nat
  | JSTime.date ms => ms
  | JSTime.str _ => 0

/-- The `LocatorStrategy` interface of zap-security.spec.ts. -/
structure LocatorStrategy where
  name : String
  selector : String
  priority : Int
  lastUsed : Option JSTime
  successRate : Rat
deriving DecidableEq, Repr

/-- One entry of the list `buildStrategies` produces: a display name (which
also keys the statistics), the query its `locatorFn` issues, and the a-priori
priority. -/
structure BuiltStrategy where
  name : String
  q : LocQuery
  priority : Int
deriving DecidableEq, Repr

/-- A strategy augmented by `getSortedStrategies` with its statistics. -/
structure RankedStrategy extends BuiltStrategy where
  successRate : Rat
  lastUsed : Option JSTime
deriving DecidableEq, Repr

/-- JS `Map.get`. -/
def mapGet {V : Type} (m : List (String × V)) (k : String) : Option V :=
  ((m.find? (fun p => p.1 == k)).map (fun p => p.2))

/-- JS `Map.set`: overwrite in place when the key exists, append otherwise. -/
def mapSet {V : Type} (m : List (String × V)) (k : String) (v : V) :
    List (String × V) :=
  match m with
  | [] => [(k, v)]
  | a :: as => if a.1 == k then (k, v) :: as else a :: mapSet as k v

/-- Mutate the first list element satisfying `p` (JS `Array.find` followed by
in-place field assignment). -/
def updateFirst {α : Type} (p : α → Bool) (f : α → α) : List α → List α
  | [] => []
  | a :: as => if p a then f a :: as else a :: updateFirst p f as

/-- Instance state of `EnhancedSelfHealingLocator`. -/
structure EnhancedState where
  strategyHistory : List (String × List LocatorStrategy)
  elementFingerprints : List (String × ElementFingerprint)
  aiLearningEnabled : Bool
deriving DecidableEq, Repr

/-- A fresh instance (constructor with learning disabled). -/
def enhancedEmptyState : EnhancedState :=
  { strategyHistory := [], elementFingerprints := [], aiLearningEnabled := false }

/-- The Strategy Record stored for `(identifier, strategy name)`, if any. -/
def findStrategyRecord (st : EnhancedState) (identifier sname : String) :
    Option LocatorStrategy :=
  ((mapGet st.strategyHistory identifier).getD []).find? (fun r => r.name == sname)

/-- The in-place mutation `recordSuccess` applies to an existing record. -/
def successBump (now : Nat) (r : LocatorStrategy) : LocatorStrategy :=
  { r with successRate := min (mkRat 1 1) (r.successRate + mkRat 1 10),
           lastUsed := some (JSTime.date now) }

/-- The in-place mutation `recordFailure` applies to an existing record. -/
def failureDrop (r : LocatorStrategy) : LocatorStrategy :=
  { r with successRate := max (mkRat 0 1) (r.successRate - mkRat 1 20) }

/-- `EnhancedSelfHealingLocator.recordSuccess`: bump an existing record by
0.1 (capped at 1.0) and refresh `lastUsed`; otherwise push a brand-new record
with success rate 0.8 and `lastUsed = now`. -/
def recordSuccess (now : Nat) (st : EnhancedState) (identifier : String)
    (s : BuiltStrategy) : EnhancedState :=
  match ((mapGet st.strategyHistory identifier).getD []).find? (fun r => r.name == s.name) with
  | some _ =>
    let updated := updateFirst (fun r => r.name == s.name) (successBump now)
      ((mapGet st.strategyHistory identifier).getD [])
    { st with strategyHistory := mapSet st.strategyHistory identifier updated }
  | none =>
    let pushed := ((mapGet st.strategyHistory identifier).getD [])
      ++ [{ name := s.name, selector := (""), priority := s.priority,
            lastUsed := some (JSTime.date now), successRate := mkRat 4 5 }]
    { st with strategyHistory := mapSet st.strategyHistory identifier pushed }

/-- `EnhancedSelfHealingLocator.recordFailure`: drop the rate of an existing record
by 0.05 (floored at 0.0); when no record exists for this identifier and
strategy name, nothing at all is stored (the freshly defaulted array is
discarded without ever reaching the map). -/
def recordFailure (st : EnhancedState) (identifier : String)
    (s : BuiltStrategy) : EnhancedState :=
  match mapGet st.strategyHistory identifier with
  | none => st
  | some history =>
    match history.find? (fun r => r.name == s.name) with
    | none => st
    | some _ =>
      let updated := updateFirst (fun r => r.name == s.name) failureDrop history
      { st with strategyHistory := mapSet st.strategyHistory identifier updated }

/-- `EnhancedSelfHealingLocator.getSuccessRate`: `strategy?.successRate || 0.5`
— the untried default 0.5 is returned both when no record exists and when the
stored rate is the falsy number 0. -/
def getSuccessRate (st : EnhancedState) (identifier sname : String) : Rat :=
  match findStrategyRecord st identifier sname with
  | none => mkRat 1 2
  | some r => if r.successRate = mkRat 0 1 then mkRat 1 2 else r.successRate

/-- `EnhancedSelfHealingLocator.getLastUsed`: `strategy?.lastUsed`. -/
def getLastUsed (st : EnhancedState) (identifier sname : String) : Option JSTime :=
  (findStrategyRecord st identifier sname).bind (fun r => r.lastUsed)

/-! ## Claim C2: Strategy Record lifecycle -/

/-- Strategy used in concrete counterexamples and witnesses. -/
def strat0 : BuiltStrategy :=
  { name := ("css: #login"), q := LocQuery.css ("#login"), priority := 5 }

/-- State reaching success rate exactly 0: one success (0.8) followed by
sixteen failures (16 × 0.05 = 0.8). -/
def stC10 : EnhancedState :=
  (fun s => recordFailure s ("tgt") strat0)^[16]
    (recordSuccess 0 enhancedEmptyState ("tgt") strat0)

/-! ## Adaptive reordering (`getSortedStrategies`) -/

/-- The strategy list `buildStrategies` produces from an option bag, in source
order with a-priori priorities 0–6; the display name keys the statistics. -/
def buildStrategies (opts : SmartOptions) : List BuiltStrategy :=
  (match opts.testId with
   | some t => [{ name := ("testId: ") ++ t, q := LocQuery.testId t, priority := 0 }]
   | none => []) ++
  (match opts.role, opts.text with
   | some r, some t =>
     [{ name := ("role: ") ++ r ++ (" with text: ") ++ t, q := LocQuery.role r t, priority := 1 }]
   | _, _ => []) ++
  (match opts.label with
   | some l => [{ name := ("label: ") ++ l, q := LocQuery.label l, priority := 2 }]
   | none => []) ++
  (match opts.placeholder with
   | some p => [{ name := ("placeholder: ") ++ p, q := LocQuery.placeholder p, priority := 3 }]
   | none => []) ++
  (match opts.text with
   | some t => [{ name := ("text: ") ++ t, q := LocQuery.text t, priority := 4 }]
   | none => []) ++
  (match opts.css with
   | some c => [{ name := ("css: ") ++ c, q := LocQuery.css c, priority := 5 }]
   | none => []) ++
  (match opts.xpath with
   | some x => [{ name := ("xpath: ") ++ x, q := LocQuery.xpath x, priority := 6 }]
   | none => [])

/-- Augment a strategy with its statistics (the `.map` step of
`getSortedStrategies`). -/
def rankStrategy (st : EnhancedState) (identifier : String)
    (s : BuiltStrategy) : RankedStrategy :=
  { toBuiltStrategy := s,
    successRate := getSuccessRate st identifier s.name,
    lastUsed := getLastUsed st identifier s.name }

/-- The sort comparator of `getSortedStrategies`, as a "comes no later than"
test: success rate descending; on a tie, when both strategies carry a
`lastUsed` timestamp, most recent first; otherwise a-priori priority
ascending. -/
def stratLEb (a b : RankedStrategy) : Bool :=
  if a.successRate = b.successRate then
    match a.lastUsed, b.lastUsed with
    | some x, some y => decide (jsTimeMs y ≤ jsTimeMs x)
    | _, _ => decide (a.priority ≤ b.priority)
  else decide (b.successRate ≤ a.successRate)

def stratLE (a b : RankedStrategy) : Prop := stratLEb a b = true

instance instDecStratLE : DecidableRel stratLE :=
  fun a b => instDecidableEqBool (stratLEb a b) true

/-- `EnhancedSelfHealingLocator.getSortedStrategies`: augment each strategy
with its statistics, then sort by the comparator.  JS `Array.prototype.sort`
is stable; it is modelled by the stable `List.insertionSort`. -/
def getSortedStrategies (st : EnhancedState) (identifier : String)
    (strategies : List BuiltStrategy) : List RankedStrategy :=
  List.insertionSort stratLE (strategies.map (rankStrategy st identifier))

/-! ## Similarity judgement and recovery -/

/-- The six key attributes `isSimilarElement` compares. -/
def keyAttrs : List String :=
  [("id"), ("class"), ("name"), ("type"), ("role"), ("data-testid")]

/-- Number of key attributes that are present (truthy, i.e. non-empty) on
both fingerprints with exactly equal values. -/
def attributeMatches (reference candidate : ElementFingerprint) : Nat :=
  keyAttrs.countP (fun attr =>
    attrGet reference.attributes attr != ("")
      && attrGet candidate.attributes attr != ("")
      && (attrGet reference.attributes attr == attrGet candidate.attributes attr))

/-- `EnhancedSelfHealingLocator.isSimilarElement`: the tag must match, then
two key-attribute matches OR exactly equal text content OR a position within
50 px on both axes suffices. -/
def isSimilarElement (reference candidate : ElementFingerprint) : Bool :=
  if reference.tag != candidate.tag then false
  else
    let textSimilar := reference.textContent == candidate.textContent
    let positionSimilar :=
      match reference.position, candidate.position with
      | some p, some q =>
        decide (|p.1 - q.1| < mkRat 50 1) && decide (|p.2 - q.2| < mkRat 50 1)
      | _, _ => false
    decide (2 ≤ attributeMatches reference candidate) || textSimilar || positionSimilar

/-- `EnhancedSelfHealingLocator.findByVisualSimilarity`: enumerate every page
element and return the first whose fingerprint is similar to the stored one
and which turns visible within 1000 ms; requires learning enabled and a
stored fingerprint. -/
def findByVisualSimilarity (o : PageOracle) (st : EnhancedState)
    (identifier : String) : Option Locator :=
  if !st.aiLearningEnabled then none
  else
    match mapGet st.elementFingerprints identifier with
    | none => none
    | some fingerprint =>
      ((o.allElements.find? (fun c => isSimilarElement fingerprint c.fp && c.visible)).map
        (fun c => Locator.handle c.fp))

/-- First whitespace token of the class attribute of the fingerprint, or the
empty string when the attribute is missing. -/
def classFirstToken (fp : ElementFingerprint) : String :=
  (((attrGet fp.attributes ("class")).splitOn (" ")).headD (""))

/-- The three synthesized selector variations of `findByAttributeSimilarity`. -/
def attrVariations (fp : ElementFingerprint) : List String :=
  [fp.tag ++ ("[class*=\"") ++ classFirstToken fp ++ ("\"]"),
   fp.tag ++ ("[type=\"") ++ attrGet fp.attributes ("type") ++ ("\"]"),
   fp.tag ++ ("[name*=\"") ++ attrGet fp.attributes ("name") ++ ("\"]")]

/-- Does the character list start with the pattern? -/
def listStartsWith : List Char → List Char → Bool
  | _, [] => true
  | [], _ :: _ => false
  | a :: as, b :: bs => a == b && listStartsWith as bs

/-- Does the character list contain the pattern as a contiguous run? -/
def listHasSub : List Char → List Char → Bool
  | [], pat => pat.isEmpty
  | a :: as, pat => listStartsWith (a :: as) pat || listHasSub as pat

/-- JS `String.prototype.includes`. -/
def strHasSub (s pat : String) : Bool := listHasSub s.toList pat.toList

/-- The variation loop of `findByAttributeSimilarity`: skip selectors that
contain an empty quoted value, otherwise wait 1000 ms on the CSS query and
return the first that turns visible. -/
def attrVariationLoop (o : PageOracle) : List String → Option Locator
  | [] => none
  | v :: rest =>
    if strHasSub v ("\"\"") then attrVariationLoop o rest
    else if o.visibleWithin (LocQuery.css v) 1000 then
      some (Locator.query (LocQuery.css v))
    else attrVariationLoop o rest

/-- `EnhancedSelfHealingLocator.findByAttributeSimilarity`. -/
def findByAttributeSimilarity (o : PageOracle) (st : EnhancedState)
    (identifier : String) : Option Locator :=
  match mapGet st.elementFingerprints identifier with
  | none => none
  | some fingerprint => attrVariationLoop o (attrVariations fingerprint)

/-- `EnhancedSelfHealingLocator.findByPositionalContext`: over all elements of
the tag of the fingerprint, return the first whose bounding-box origin is within
100 px on both axes and which turns visible within 1000 ms. -/
def findByPositionalContext (o : PageOracle) (st : EnhancedState)
    (identifier : String) : Option Locator :=
  match mapGet st.elementFingerprints identifier with
  | none => none
  | some fingerprint =>
    match fingerprint.position with
    | none => none
    | some pos =>
      (((o.allElements.filter (fun e => e.fp.tag == fingerprint.tag)).find? (fun e =>
        match e.fp.position with
        | some q =>
          decide (|q.1 - pos.1| < mkRat 100 1) && decide (|q.2 - pos.2| < mkRat 100 1)
            && e.visible
        | none => false)).map (fun e => Locator.handle e.fp))

/-- The three recovery techniques of `tryAIRecovery`. -/
inductive RecoveryTech where
  | general
  | attrSim
  | positional
deriving DecidableEq, Repr

/-- `EnhancedSelfHealingLocator.tryAIRecovery`, also reporting the techniques
attempted, in order: the source tries `findByVisualSimilarity` (the general
fingerprint-similarity search) first, then `findByAttributeSimilarity`, then
`findByPositionalContext`, returning at the first success. -/
def tryAIRecovery (o : PageOracle) (st : EnhancedState) (identifier : String) :
    Option Locator × List RecoveryTech :=
  match findByVisualSimilarity o st identifier with
  | some e => (some e, [RecoveryTech.general])
  | none =>
    match findByAttributeSimilarity o st identifier with
    | some l => (some l, [RecoveryTech.general, RecoveryTech.attrSim])
    | none =>
      match findByPositionalContext o st identifier with
      | some e =>
        (some e, [RecoveryTech.general, RecoveryTech.attrSim, RecoveryTech.positional])
      | none =>
        (none, [RecoveryTech.general, RecoveryTech.attrSim, RecoveryTech.positional])

/-! ## The adaptive resolver `smartLocatorWithLearning` -/

/-- `EnhancedSelfHealingLocator.learnElementCharacteristics`: store the
fingerprint of the freshly located element (silently skipped when reading the
element fails). -/
def learnElementCharacteristics (o : PageOracle) (st : EnhancedState)
    (identifier : String) (q : LocQuery) : EnhancedState :=
  match o.resolveQueryFp q with
  | some fp =>
    { st with elementFingerprints := mapSet st.elementFingerprints identifier fp }
  | none => st

/-- The ranked-candidate loop of `smartLocatorWithLearning`: try each sorted
strategy with a 3000 ms wait; on success record it (and learn the fingerprint
when enabled) and stop; on failure record the failure and continue.  Returns
the final state, the names attempted in order, and the winning strategy. -/
def runRanked (o : PageOracle) (now : Nat) (identifier : String) :
    EnhancedState → List RankedStrategy →
      EnhancedState × List String × Option RankedStrategy
  | st, [] => (st, [], none)
  | st, s :: rest =>
    if o.visibleWithin s.q 3000 then
      let st1 := recordSuccess now st identifier s.toBuiltStrategy
      let st2 :=
        if st1.aiLearningEnabled then learnElementCharacteristics o st1 identifier s.q
        else st1
      (st2, [s.name], some s)
    else
      let r2 := runRanked o now identifier (recordFailure st identifier s.toBuiltStrategy) rest
      (r2.1, s.name :: r2.2.1, r2.2.2)

/-- Outcome of one `smartLocatorWithLearning` call: final state, the ranked
strategy names attempted in order, the recovery techniques attempted, whether
the original-self-healing fallback ran, and the returned locator or thrown
message. -/
structure SLWLOutcome where
  state : EnhancedState
  attempted : List String
  recovery : List RecoveryTech
  fallbackUsed : Bool
  result : Except String Locator
deriving Repr

instance : DecidableEq SLWLOutcome := fun a b => by
  cases a; cases b
  exact decidable_of_iff (_ ∧ _ ∧ _ ∧ _ ∧ _)
    (Iff.symm (SLWLOutcome.mk.injEq _ _ _ _ _ _ _ _ _ _).to_iff)

/-- The final fallback of `smartLocatorWithLearning`: delegate to the original
`SelfHealingLocator` — `smartLocator` when both `role` and `text` are set
(the source passes the options object without an identifier, so the original
resolver sees the string "undefined"), else `findInput` with type text
and `name` taken from the `label` option; when that also throws, throw the
combined failure naming the identifier. -/
def slwlFallback (o : PageOracle) (st1 : EnhancedState) (attempted : List String)
    (recovery : List RecoveryTech) (opts : SmartOptions) : SLWLOutcome :=
  if opts.role.isSome && opts.text.isSome then
    let fbOpts : SmartOptions :=
      { role := opts.role, text := opts.text, placeholder := opts.placeholder,
        label := opts.label, testId := opts.testId, css := opts.css,
        xpath := opts.xpath, identifier := ("undefined") }
    match (smartLocator o fbOpts).res with
    | Except.ok loc =>
      { state := st1, attempted := attempted, recovery := recovery,
        fallbackUsed := true, result := Except.ok loc }
    | Except.error _ =>
      { state := st1, attempted := attempted, recovery := recovery,
        fallbackUsed := true,
        result := Except.error (("❌ All strategies failed for ") ++ opts.identifier
          ++ (": Enhanced and original both failed")) }
  else
    let inOpts : InputOptions :=
      { type := some ("text"), name := opts.label,
        placeholder := opts.placeholder, identifier := opts.identifier }
    match (findInput o inOpts).res with
    | Except.ok loc =>
      { state := st1, attempted := attempted, recovery := recovery,
        fallbackUsed := true, result := Except.ok loc }
    | Except.error _ =>
      { state := st1, attempted := attempted, recovery := recovery,
        fallbackUsed := true,
        result := Except.error (("❌ All strategies failed for ") ++ opts.identifier
          ++ (": Enhanced and original both failed")) }

/-- What `smartLocatorWithLearning` does after the ranked loop: return the
winner; otherwise, when learning is enabled, run AI recovery and return its
element on success; otherwise fall back to the original self-healing logic. -/
def slwlAfterRanked (o : PageOracle) (opts : SmartOptions)
    (r : EnhancedState × List String × Option RankedStrategy) : SLWLOutcome :=
  match r.2.2 with
  | some s =>
    { state := r.1, attempted := r.2.1, recovery := [], fallbackUsed := false,
      result := Except.ok (Locator.query s.q) }
  | none =>
    if r.1.aiLearningEnabled then
      match (tryAIRecovery o r.1 opts.identifier).1 with
      | some loc =>
        { state := r.1, attempted := r.2.1,
          recovery := (tryAIRecovery o r.1 opts.identifier).2,
          fallbackUsed := false, result := Except.ok loc }
      | none => slwlFallback o r.1 r.2.1 (tryAIRecovery o r.1 opts.identifier).2 opts
    else slwlFallback o r.1 r.2.1 [] opts

/-- `EnhancedSelfHealingLocator.smartLocatorWithLearning`: build the strategy
list, sort it by learned statistics, run the ranked loop, then recovery, then
the original-self-healing fallback. -/
def smartLocatorWithLearning (o : PageOracle) (now : Nat) (st : EnhancedState)
    (opts : SmartOptions) : SLWLOutcome :=
  slwlAfterRanked o opts
    (runRanked o now opts.identifier st
      (getSortedStrategies st opts.identifier (buildStrategies opts)))

/-! ## Claim C7: the general similarity judgement -/

/-- Spec-side predicate (the claim as written): at least two of the six key
attribute values are present on both elements and match exactly. -/
def specAttributePairMatches (reference candidate : ElementFingerprint) : Prop :=
  2 ≤ (keyAttrs.filter (fun attr =>
    attrGet reference.attributes attr != ("")
      && attrGet candidate.attributes attr != ("")
      && (attrGet reference.attributes attr == attrGet candidate.attributes attr))).length

/-- Spec-side predicate: the text content matches exactly. -/
def specTextMatches (reference candidate : ElementFingerprint) : Prop :=
  reference.textContent = candidate.textContent

/-- Spec-side predicate: both positions exist and are within `tol` pixels on
both axes. -/
def specPositionWithin (reference candidate : ElementFingerprint) (tol : Rat) : Prop :=
  ∃ p q, reference.position = some p ∧ candidate.position = some q
    ∧ |p.1 - q.1| < tol ∧ |p.2 - q.2| < tol

/-- The similarity judgement exactly as claim C7 states it: a disjunction of
the three conditions, with no tag requirement. -/
def specSimilarityJudgement (reference candidate : ElementFingerprint) : Prop :=
  specAttributePairMatches reference candidate
  ∨ specTextMatches reference candidate
  ∨ specPositionWithin reference candidate (mkRat 50 1)

/-- Reference fingerprint for the C7 counterexample. -/
def fpRefC7 : ElementFingerprint :=
  { tag := ("input"), attributes := [], textContent := some ("Saudi ID"),
    position := none, dimensions := none }

/-- Candidate fingerprint for the C7 counterexample: same text, different tag. -/
def fpCandC7 : ElementFingerprint :=
  { tag := ("div"), attributes := [], textContent := some ("Saudi ID"),
    position := none, dimensions := none }

/-! ## Claim C4: recovery technique order -/

/-- Stored fingerprint for the C4 counterexample. -/
def fpC4 : ElementFingerprint :=
  { tag := ("input"),
    attributes := [(("class"), ("btn primary")), (("type"), ("text"))],
    textContent := some ("Hello"), position := some (mkRat 10 1, mkRat 20 1),
    dimensions := none }

/-- A page element similar to `fpC4` (same tag and text). -/
def fpC4gen : ElementFingerprint :=
  { tag := ("input"), attributes := [], textContent := some ("Hello"),
    position := none, dimensions := none }

/-- Oracle for the C4 counterexample: the synthesized class selector is
visible (so the attribute technique would succeed), and the page holds one
element similar to the fingerprint (so the general technique succeeds too). -/
def oracleC4 : PageOracle :=
  { visibleWithin := fun q _ => q == LocQuery.css ("input[class*=\"btn\"]")
    allElements := [{ fp := fpC4gen, visible := true }]
    resolveQueryFp := fun _ => none }

/-- State for the C4 counterexample: learning enabled, fingerprint stored. -/
def stC4 : EnhancedState :=
  { strategyHistory := [], elementFingerprints := [(("tgt"), fpC4)],
    aiLearningEnabled := true }

/-- Options for the C5 concrete runs. -/
def optsC5 : SmartOptions :=
  { role := some ("button"), text := some ("OK"), identifier := ("tgt") }

/-- State for the C5 concrete runs: learning enabled, nothing stored. -/
def stC5 : EnhancedState :=
  { strategyHistory := [], elementFingerprints := [], aiLearningEnabled := true }

/-- Oracle for the C5 counterexample: nothing turns visible within the
3000 ms budget of the enhanced resolver, but the role query turns visible
within the 5000 ms budget of the original resolver. -/
def oracleC5 : PageOracle :=
  { visibleWithin := fun q t => (t == 5000) && (q == LocQuery.role ("button") ("OK"))
    allElements := []
    resolveQueryFp := fun _ => none }

/-! ## Claim C9: export/import round trip -/

/-- `JSON.stringify` of a JS value that may be a `Date`: a `Date` serializes
via `toISOString` to a string (and `JSON.parse` applies no reviver, so it
stays a string); a string stays itself. -/
def serializeTime (iso : Nat → String) : JSTime → JSTime
  | JSTime.date ms => JSTime.str (iso ms)
  | JSTime.str s => JSTime.str s

/-- The effect of `JSON.stringify` followed by `JSON.parse` on one stored
Strategy Record: every field round-trips identically except `lastUsed`, whose
`Date` becomes its ISO string. -/
def serializeStrategy (iso : Nat → String) (r : LocatorStrategy) : LocatorStrategy :=
  { r with lastUsed := r.lastUsed.map (serializeTime iso) }

/-- The parsed form of the exported blob.  The JSON text itself is bijective
with the parsed value (strings, finite numbers, arrays and string-keyed
objects round-trip exactly through `JSON.stringify`/`JSON.parse`), so the
blob is modelled at the parsed level; the one lossy step — `Date` values
serializing to ISO strings — is made explicit by `serializeStrategy`. -/
structure LearningBlob where
  strategies : List (String × List LocatorStrategy)
  fingerprints : List (String × ElementFingerprint)
deriving DecidableEq, Repr

/-- `EnhancedSelfHealingLocator.exportLearningData`. -/
def exportLearningData (iso : Nat → String) (st : EnhancedState) : LearningBlob :=
  { strategies := st.strategyHistory.map (fun p => (p.1, p.2.map (serializeStrategy iso))),
    fingerprints := st.elementFingerprints }

/-- `EnhancedSelfHealingLocator.importLearningData`: replace both stores of
the receiving instance with the parsed blob contents. -/
def importLearningData (st : EnhancedState) (b : LearningBlob) : EnhancedState :=
  { st with strategyHistory := b.strategies, elementFingerprints := b.fingerprints }

/-- Concrete stand-in for `Date.prototype.toISOString`; the claims depend
only on the serialized value being a string, never on its format. -/
def toISOStringModel (ms : Nat) : String := ("iso:") ++ toString ms

/-- Store for the C9 counterexample: one Strategy Record carrying a `Date`
last-used timestamp. -/
def stC9 : EnhancedState :=
  { strategyHistory := [(("tgt"),
      [{ name := ("css: #login"), selector := (""), priority := 5,
         lastUsed := some (JSTime.date 5), successRate := mkRat 4 5 }])],
    elementFingerprints := [], aiLearningEnabled := false }

/-- Is an optional stored timestamp a `Date` (or absent)?  `false` exactly on
the string form a JSON import produces. -/
def isDateTime : Option JSTime → Bool
  | some (JSTime.str _) => false
  | _ => true

/-- Every Strategy Record of the store carries a `Date` (or no) last-used
value.  This holds for every state the recorder itself produces; it fails
after `importLearningData`, where `lastUsed` holds ISO strings — states on
which the real sort comparator would throw a `TypeError` in `.getTime()`,
a path the total model `jsTimeMs` cannot represent.  Sorting claims are
therefore scoped to such stores. -/
def dateTimesOnly (st : EnhancedState) : Prop :=
  ∀ p ∈ st.strategyHistory, ∀ r ∈ p.2, isDateTime r.lastUsed = true

instance (st : EnhancedState) : Decidable (dateTimesOnly st) := by
  unfold dateTimesOnly
  infer_instance

/-- Strategy whose statistics are exercised by the C3 counterexample (the
a-priori-later text strategy of `optsC3`). -/
def stratC3B : BuiltStrategy :=
  { name := ("text: OK"), q := LocQuery.text ("OK"), priority := 4 }

/-- Options for the C3 counterexample: a testId candidate (priority 0) and a
text candidate (priority 4). -/
def optsC3 : SmartOptions :=
  { testId := some ("x1"), text := some ("OK"), identifier := ("tgt") }

/-- State for the C3 counterexample: the text strategy recorded one success
(rate 0.8, last-used = 7) followed by six failures, leaving its success rate
at exactly the untried default 0.5 — while the testId strategy was never
tried at all. -/
def stC3 : EnhancedState :=
  (fun s => recordFailure s ("tgt") stratC3B)^[6]
    (recordSuccess 7 enhancedEmptyState ("tgt") stratC3B)

/-! ## Theorems -/
/-! Behaviour of the shared attempt loop. -/

theorem tryQueries_eq (o : PageOracle) (t : Nat) (qs : List LocQuery) :
    tryQueries o t qs =
      (qs.takeWhile (fun x => !o.visibleWithin x t) ++
        (qs.find? (fun x => o.visibleWithin x t)).toList,
       qs.find? (fun x => o.visibleWithin x t)) := by
  induction qs with
  | nil => rfl
  | cons q rest ih =>
    by_cases h : o.visibleWithin q t
    · simp [tryQueries, h, List.takeWhile_cons, List.find?]
    · simp only [tryQueries, h, if_false, ih, List.takeWhile_cons, List.find?]
      simp [h]

theorem tryQueries_all_fail (o : PageOracle) (t : Nat) (qs : List LocQuery)
    (h : ∀ q ∈ qs, o.visibleWithin q t = false) :
    tryQueries o t qs = (qs, none) := by
  have hf : qs.find? (fun x => o.visibleWithin x t) = none :=
    List.find?_eq_none.mpr (by intro q hq; simpa using h q hq)
  have ht : qs.takeWhile (fun x => !o.visibleWithin x t) = qs :=
    List.takeWhile_eq_self_iff.mpr (by intro q hq; simpa using h q hq)
  rw [tryQueries_eq, hf, ht]
  simp

/-! ## Claim C1: first success wins, no later candidate attempted -/

/-- Claim C1: for `findElement` and `smartLocator`, candidates are attempted
strictly in list order; the first candidate whose visibility wait succeeds is
returned immediately, and the queries issued are exactly the failing prefix
followed by that one successful query — no query after the first success. -/
theorem claim_C1 (o : PageOracle) (primarySelector identifier : String)
    (fallbackSelectors : List String) (opts : SmartOptions) :
    (∀ q,
      (LocQuery.css primarySelector :: fallbackSelectors.map LocQuery.css).find?
          (fun x => o.visibleWithin x 5000) = some q →
      (findElement o primarySelector fallbackSelectors identifier).res
          = Except.ok (Locator.query q)
      ∧ (findElement o primarySelector fallbackSelectors identifier).issued
          = (LocQuery.css primarySelector :: fallbackSelectors.map LocQuery.css).takeWhile
              (fun x => !o.visibleWithin x 5000) ++ [q])
    ∧ (∀ q,
      (smartStrategies opts).find? (fun x => o.visibleWithin x 5000) = some q →
      (smartLocator o opts).res = Except.ok (Locator.query q)
      ∧ (smartLocator o opts).issued
          = (smartStrategies opts).takeWhile (fun x => !o.visibleWithin x 5000) ++ [q]) := by
  constructor
  · intro q hq
    simp only [findElement, tryQueries_eq, hq]
    simp
  · intro q hq
    simp only [smartLocator, tryQueries_eq, hq]
    simp

theorem claim_C1_witness :
    (findElement oracleOnlyB ("#a") [("#b"), ("#c")] ("tgt")).res
        = Except.ok (Locator.query (LocQuery.css ("#b")))
    ∧ (findElement oracleOnlyB ("#a") [("#b"), ("#c")] ("tgt")).issued
        = [LocQuery.css ("#a"), LocQuery.css ("#b")]
    ∧ (smartLocator oraclePh optsPh).res
        = Except.ok (Locator.query (LocQuery.placeholder ("P")))
    ∧ (smartLocator oraclePh optsPh).issued
        = [LocQuery.label ("L"), LocQuery.placeholder ("P")] := by
  have h := (claim_C1 oracleOnlyB ("#a") ("tgt") [("#b"), ("#c")]
      { identifier := ("tgt") }).1 (LocQuery.css ("#b")) (by decide)
  have h2 := (claim_C1 oraclePh ("#a") ("tgt") [] optsPh).2
      (LocQuery.placeholder ("P")) (by decide)
  refine ⟨h.1, ?_, h2.1, ?_⟩
  · rw [h.2]
    decide
  · rw [h2.2]
    decide

/-! ## Claim C6: exhaustion of a plain resolve names the identifier -/

/-- Claim C6: when every candidate of a plain `findElement` / `smartLocator` /
`findByText` call times out, the call throws an error whose message contains
the target identifier, and no locator is returned. -/
theorem claim_C6 (o : PageOracle) (primarySelector identifier primaryText : String)
    (fallbackSelectors fallbackTexts : List String) (opts : SmartOptions) :
    ((∀ q ∈ LocQuery.css primarySelector :: fallbackSelectors.map LocQuery.css,
        o.visibleWithin q 5000 = false) →
      (findElement o primarySelector fallbackSelectors identifier).res
          = Except.error ("❌ All selectors failed for " ++ identifier)
      ∧ ∃ pre post, ("❌ All selectors failed for " ++ identifier)
          = pre ++ identifier ++ post)
    ∧ ((∀ q ∈ smartStrategies opts, o.visibleWithin q 5000 = false) →
      (smartLocator o opts).res
          = Except.error ("❌ All strategies failed for " ++ opts.identifier)
      ∧ ∃ pre post, ("❌ All strategies failed for " ++ opts.identifier)
          = pre ++ opts.identifier ++ post)
    ∧ ((∀ q ∈ (primaryText :: fallbackTexts).map LocQuery.text,
        o.visibleWithin q 5000 = false) →
      (findByText o primaryText fallbackTexts identifier).res
          = Except.error ("❌ Could not find " ++ identifier ++ " by any text pattern")
      ∧ ∃ pre post, ("❌ Could not find " ++ identifier ++ " by any text pattern")
          = pre ++ identifier ++ post) := by
  refine ⟨fun h => ⟨?_, ("❌ All selectors failed for "), (""), by simp⟩,
          fun h => ⟨?_, ("❌ All strategies failed for "), (""), by simp⟩,
          fun h => ⟨?_, ("❌ Could not find "), (" by any text pattern"), rfl⟩⟩
  · simp only [findElement, tryQueries_all_fail o 5000 _ h]
  · simp only [smartLocator, tryQueries_all_fail o 5000 _ h]
  · simp only [findByText, tryQueries_all_fail o 5000 _ h]

theorem claim_C6_witness :
    (findElement oracleNone ("#a") [("#b")] ("tgt")).res
        = Except.error ("❌ All selectors failed for tgt")
    ∧ (smartLocator oracleNone optsPh).res
        = Except.error ("❌ All strategies failed for tgt")
    ∧ (findByText oracleNone ("Login") [] ("tgt")).res
        = Except.error ("❌ Could not find tgt by any text pattern") := by
  have h := claim_C6 oracleNone ("#a") ("tgt") ("Login") [("#b")] [] optsPh
  exact ⟨(h.1 (by decide)).1, (h.2.1 (by decide)).1, (h.2.2 (by decide)).1⟩

/-! ## Claim C8: specialized finders with no optional fields -/

/-- Claim C8 counterexample: with no optional fields, `findInput` issues zero
page queries but throws the very same generic not-found error value that a
fully-exhausted resolution throws (here: the same options bag with a `type`
field whose queries all fail) — there is no distinct input-validation error.
Likewise for `findButton`. -/
theorem claim_C8_counterexample :
    (findInput oracleNone { identifier := ("SaudiIdInput") }).res
        = Except.error ("❌ Could not find input SaudiIdInput")
    ∧ (findInput oracleNone { identifier := ("SaudiIdInput") }).issued = []
    ∧ (findInput oracleNone { type := some ("text"), identifier := ("SaudiIdInput") }).res
        = Except.error ("❌ Could not find input SaudiIdInput")
    ∧ (findInput oracleNone { type := some ("text"), identifier := ("SaudiIdInput") }).issued
        = [LocQuery.css ("input[type=\"text\"]")]
    ∧ (findButton oracleNone { identifier := ("LoginBtn") }).res
        = Except.error ("❌ Could not find button LoginBtn")
    ∧ (findButton oracleNone { identifier := ("LoginBtn") }).issued = [] := by
  refine ⟨?_, ?_, ?_, ?_, ?_, ?_⟩ <;> decide

/-- Claim C8 (amended): invoking `findInput` / `findButton` with no optional
fields issues zero Page Access Boundary queries and throws immediately, but
the error thrown is the generic resolution-failure message naming the
identifier — identical to the error of an exhausted resolution — not a
distinct input-validation error. -/
theorem claim_C8 (o o2 : PageOracle) (id ty : String) :
    findInput o { identifier := id }
      = { res := Except.error ("❌ Could not find input " ++ id), issued := [] }
    ∧ findButton o { identifier := id }
      = { res := Except.error ("❌ Could not find button " ++ id), issued := [] }
    ∧ ((∀ q t, o2.visibleWithin q t = false) →
        (findInput o2 { type := some ty, identifier := id }).res
          = (findInput o { identifier := id }).res) := by
  refine ⟨rfl, rfl, fun h => ?_⟩
  simp only [findInput, inputSelectors, tryQueries_all_fail o2 5000 _
    (fun q _ => h q 5000)]
  rfl

theorem claim_C8_witness :
    (findInput oracleNone { type := some ("text"), identifier := ("X") }).res
      = (findInput oracleNone { identifier := ("X") }).res :=
  (claim_C8 oracleNone oracleNone ("X") ("text")).2.2 (fun _ _ => rfl)

/-! Small assoc-list lemmas used to reason about the statistics store. -/

theorem mapGet_mapSet_self {V : Type} (m : List (String × V)) (k : String) (v : V) :
    mapGet (mapSet m k v) k = some v := by
  induction m with
  | nil => simp [mapSet, mapGet, List.find?]
  | cons a as ih =>
    cases ha : (a.1 == k) with
    | true => simp [mapSet, ha, mapGet, List.find?]
    | false =>
      simp only [mapSet, ha, Bool.false_eq_true, if_false]
      simpa [mapGet, List.find?, ha] using ih

theorem find?_append_of_none {α : Type} (p : α → Bool) (l₁ l₂ : List α)
    (h : l₁.find? p = none) : (l₁ ++ l₂).find? p = l₂.find? p := by
  induction l₁ with
  | nil => rfl
  | cons a as ih =>
    cases ha : p a with
    | true => simp [List.find?, ha] at h
    | false =>
      simp only [List.find?, ha] at h
      simpa [List.find?, ha] using ih h

theorem updateFirst_find? {α : Type} (p : α → Bool) (f : α → α) (l : List α)
    (hp : ∀ a, p a = true → p (f a) = true) :
    (updateFirst p f l).find? p = (l.find? p).map f := by
  induction l with
  | nil => rfl
  | cons a as ih =>
    cases ha : p a with
    | true => simp [updateFirst, ha, List.find?, hp a ha]
    | false =>
      simp only [updateFirst, ha, Bool.false_eq_true, if_false]
      simpa [List.find?, ha] using ih

set_option maxRecDepth 4000 in
/-- Claim C2 counterexample: on a fresh instance, a first *failing* attempt
creates no Strategy Record at all (the claim says the record is created on
the first attempt whether it succeeds or fails), and a first *successful*
attempt creates the record with success rate 0.8 — not the claimed
0.5 + 0.1 = 0.6. -/
theorem claim_C2_counterexample :
    recordFailure enhancedEmptyState ("LoginButton") strat0 = enhancedEmptyState
    ∧ findStrategyRecord (recordFailure enhancedEmptyState ("LoginButton") strat0)
        ("LoginButton") ("css: #login") = none
    ∧ findStrategyRecord (recordSuccess 1000 enhancedEmptyState ("LoginButton") strat0)
        ("LoginButton") ("css: #login")
        = some { name := ("css: #login"), selector := (""), priority := 5,
                 lastUsed := some (JSTime.date 1000), successRate := mkRat 4 5 }
    ∧ mkRat 4 5 ≠ mkRat 1 2 + mkRat 1 10 := by
  refine ⟨?_, ?_, ?_, ?_⟩ <;> with_unfolding_all decide

/-- Claim C2 (amended): the success rate reads as the untried default 0.5 when
no record exists; a Strategy Record is created only by the first *successful*
attempt, initialized with success rate 0.8 and `lastUsed = now`; a success on
an existing record adds 0.1 (capped at 1.0) and refreshes `lastUsed`; a
failure on an existing record subtracts 0.05 (floored at 0.0); a failure with
no existing record leaves the whole store unchanged. -/
theorem claim_C2 (st : EnhancedState) (identifier : String) (s : BuiltStrategy)
    (now : Nat) :
    (findStrategyRecord st identifier s.name = none →
      recordFailure st identifier s = st
      ∧ findStrategyRecord (recordSuccess now st identifier s) identifier s.name
          = some { name := s.name, selector := (""), priority := s.priority,
                   lastUsed := some (JSTime.date now), successRate := mkRat 4 5 }
      ∧ getSuccessRate st identifier s.name = mkRat 1 2)
    ∧ (∀ r, findStrategyRecord st identifier s.name = some r →
      findStrategyRecord (recordSuccess now st identifier s) identifier s.name
          = some { r with successRate := min (mkRat 1 1) (r.successRate + mkRat 1 10), lastUsed := some (JSTime.date now) }
      ∧ findStrategyRecord (recordFailure st identifier s) identifier s.name
          = some { r with successRate := max (mkRat 0 1) (r.successRate - mkRat 1 20) }) := by
  constructor
  · intro h
    have h' : ((mapGet st.strategyHistory identifier).getD []).find?
        (fun r => r.name == s.name) = none := h
    refine ⟨?_, ?_, ?_⟩
    · unfold recordFailure
      cases hm : mapGet st.strategyHistory identifier with
      | none => rfl
      | some history =>
        rw [hm] at h'
        simp only [Option.getD_some] at h'
        simp [h']
    · unfold recordSuccess findStrategyRecord
      rw [h', mapGet_mapSet_self]
      simp only [Option.getD_some]
      rw [find?_append_of_none _ _ _ h']
      simp [List.find?]
    · unfold getSuccessRate
      rw [h]
  · intro r h
    have h' : ((mapGet st.strategyHistory identifier).getD []).find?
        (fun r => r.name == s.name) = some r := h
    constructor
    · unfold recordSuccess findStrategyRecord
      rw [h', mapGet_mapSet_self]
      simp only [Option.getD_some]
      rw [updateFirst_find? (fun r => r.name == s.name) (successBump now)
        ((mapGet st.strategyHistory identifier).getD []) (fun a ha => ha), h']
      rfl
    · unfold recordFailure findStrategyRecord
      cases hm : mapGet st.strategyHistory identifier with
      | none =>
        rw [hm] at h'
        simp [List.find?] at h'
      | some history =>
        rw [hm] at h'
        simp only [Option.getD_some] at h'
        dsimp only
        rw [h']
        dsimp only
        rw [mapGet_mapSet_self]
        simp only [Option.getD_some]
        rw [updateFirst_find? (fun r => r.name == s.name) failureDrop history
          (fun a ha => ha), h']
        rfl

theorem claim_C2_witness :
    recordFailure enhancedEmptyState ("tgt") strat0 = enhancedEmptyState
    ∧ getSuccessRate enhancedEmptyState ("tgt") ("css: #login") = mkRat 1 2 := by
  have h := (claim_C2 enhancedEmptyState ("tgt") strat0 0).1 (by with_unfolding_all decide)
  exact ⟨h.1, h.2.2⟩

/-! ## Claim C10: a rate driven to exactly 0.0 reads back as the 0.5 default -/

/-- Claim C10: when the success rate stored in the Strategy Record is exactly 0,
`getSuccessRate` — the value `getSortedStrategies` ranks by — returns the
untried default 0.5, the same value an identifier with no record at all gets
(the falsy `|| 0.5` fallback swallows a genuine 0). -/
theorem claim_C10 (st : EnhancedState) (identifier sname : String)
    (r : LocatorStrategy) (h : findStrategyRecord st identifier sname = some r)
    (h0 : r.successRate = mkRat 0 1) :
    getSuccessRate st identifier sname = mkRat 1 2
    ∧ getSuccessRate enhancedEmptyState identifier sname = mkRat 1 2 := by
  constructor
  · unfold getSuccessRate
    rw [h]
    simp [h0]
  · rfl

set_option maxRecDepth 8000 in
theorem claim_C10_witness :
    findStrategyRecord stC10 ("tgt") ("css: #login")
        = some { name := ("css: #login"), selector := (""), priority := 5,
                 lastUsed := some (JSTime.date 0), successRate := mkRat 0 1 }
    ∧ getSuccessRate stC10 ("tgt") ("css: #login") = mkRat 1 2 := by
  refine ⟨by with_unfolding_all decide, ?_⟩
  exact (claim_C10 stC10 ("tgt") ("css: #login")
    { name := ("css: #login"), selector := (""), priority := 5,
      lastUsed := some (JSTime.date 0), successRate := mkRat 0 1 }
    (by with_unfolding_all decide) rfl).1

theorem stratLE_total (a b : RankedStrategy) : stratLE a b ∨ stratLE b a := by
  unfold stratLE stratLEb
  by_cases hr : a.successRate = b.successRate
  · rw [if_pos hr, if_pos hr.symm]
    rcases ha : a.lastUsed with _ | x <;> rcases hb : b.lastUsed with _ | y <;>
      simp only [decide_eq_true_eq] <;> omega
  · rw [if_neg hr, if_neg (Ne.symm hr)]
    simp only [decide_eq_true_eq]
    exact le_total _ _

theorem stratLE_rate {a b : RankedStrategy} (h : stratLE a b) :
    b.successRate ≤ a.successRate := by
  unfold stratLE stratLEb at h
  by_cases hr : a.successRate = b.successRate
  · exact le_of_eq hr.symm
  · rw [if_neg hr] at h
    simpa using h

theorem pairwise_rate_orderedInsert (x : RankedStrategy) (l : List RankedStrategy)
    (hl : l.Pairwise (fun a b => b.successRate ≤ a.successRate)) :
    (List.orderedInsert stratLE x l).Pairwise
      (fun a b => b.successRate ≤ a.successRate) := by
  induction l with
  | nil => simp [List.orderedInsert]
  | cons y l ih =>
    rcases List.pairwise_cons.mp hl with ⟨hy, hl'⟩
    rw [List.orderedInsert]
    by_cases hxy : stratLE x y
    · rw [if_pos hxy]
      refine List.pairwise_cons.mpr ⟨?_, hl⟩
      intro z hz
      rcases List.mem_cons.mp hz with hz | hz
      · subst hz
        exact stratLE_rate hxy
      · exact le_trans (hy z hz) (stratLE_rate hxy)
    · rw [if_neg hxy]
      have hyx : stratLE y x := (stratLE_total x y).resolve_left hxy
      refine List.pairwise_cons.mpr ⟨?_, ih hl'⟩
      intro z hz
      rcases List.mem_cons.mp ((List.perm_orderedInsert stratLE x l).mem_iff.mp hz)
        with hz | hz
      · subst hz
        exact stratLE_rate hyx
      · exact hy z hz

theorem pairwise_rate_insertionSort (l : List RankedStrategy) :
    (List.insertionSort stratLE l).Pairwise
      (fun a b => b.successRate ≤ a.successRate) := by
  induction l with
  | nil => simp [List.insertionSort]
  | cons a l ih =>
    rw [List.insertionSort]
    exact pairwise_rate_orderedInsert a _ ih

theorem runRanked_attempted (o : PageOracle) (now : Nat) (identifier : String) :
    ∀ (l : List RankedStrategy) (st : EnhancedState),
      ∃ rest, l.map (fun r => r.name)
        = (runRanked o now identifier st l).2.1 ++ rest := by
  intro l
  induction l with
  | nil => exact fun st => ⟨[], rfl⟩
  | cons s rest ih =>
    intro st
    by_cases hv : o.visibleWithin s.q 3000
    · refine ⟨rest.map (fun r => r.name), ?_⟩
      simp [runRanked, hv]
    · rcases ih (recordFailure st identifier s.toBuiltStrategy) with ⟨tail, htail⟩
      refine ⟨tail, ?_⟩
      simp only [runRanked, hv, Bool.false_eq_true, if_false, List.map, List.cons_append]
      rw [htail]

theorem slwlAfterRanked_attempted (o : PageOracle) (opts : SmartOptions)
    (r : EnhancedState × List String × Option RankedStrategy) :
    (slwlAfterRanked o opts r).attempted = r.2.1 := by
  rcases r with ⟨st1, att, hit⟩
  cases hit with
  | some s => rfl
  | none =>
    unfold slwlAfterRanked
    by_cases hl : st1.aiLearningEnabled
    · simp only [hl, if_true]
      cases hr : (tryAIRecovery o st1 opts.identifier).1 with
      | some loc => rfl
      | none =>
        unfold slwlFallback
        by_cases hrt : opts.role.isSome && opts.text.isSome
        · simp only [hrt, if_true]
          cases (smartLocator o _).res <;> rfl
        · simp only [hrt, if_false]
          cases (findInput o _).res <;> rfl
    · simp only [hl, if_false]
      unfold slwlFallback
      by_cases hrt : opts.role.isSome && opts.text.isSome
      · simp only [hrt, if_true]
        cases (smartLocator o _).res <;> rfl
      · simp only [hrt, if_false]
        cases (findInput o _).res <;> rfl

/-! ## Claim C3: adaptive reordering before any attempt -/

theorem chain_orderedInsert (x : RankedStrategy) (l : List RankedStrategy)
    (hl : List.Chain' stratLE l) :
    List.Chain' stratLE (List.orderedInsert stratLE x l) := by
  induction l with
  | nil => simp [List.orderedInsert]
  | cons y l ih =>
    rw [List.orderedInsert]
    by_cases hxy : stratLE x y
    · rw [if_pos hxy]
      exact List.chain'_cons.mpr ⟨hxy, hl⟩
    · rw [if_neg hxy]
      have hyx : stratLE y x := (stratLE_total x y).resolve_left hxy
      cases l with
      | nil =>
        simp only [List.orderedInsert]
        exact List.chain'_cons.mpr ⟨hyx, List.chain'_singleton x⟩
      | cons z l2 =>
        by_cases hxz : stratLE x z
        · rw [List.orderedInsert, if_pos hxz]
          exact List.chain'_cons.mpr ⟨hyx, List.chain'_cons.mpr ⟨hxz, hl.tail⟩⟩
        · rw [List.orderedInsert, if_neg hxz]
          have hyz : stratLE y z := (List.chain'_cons.mp hl).1
          have hrec := ih hl.tail
          rw [List.orderedInsert, if_neg hxz] at hrec
          exact List.chain'_cons.mpr ⟨hyz, hrec⟩

theorem chain_insertionSort (l : List RankedStrategy) :
    List.Chain' stratLE (List.insertionSort stratLE l) := by
  induction l with
  | nil => simp [List.insertionSort]
  | cons a l ih =>
    rw [List.insertionSort]
    exact chain_orderedInsert a _ ih

/-- Claim C3 counterexample: in a reachable store (one success at time 7 then
six failures for the a-priori-later text candidate, leaving its rate at
exactly the untried default 0.5), the sorted output places the untried
priority-0 candidate (no last-used) BEFORE the candidate with equal success
rate and the only — hence most recent — last-used timestamp.  The claimed
sort key (success rate descending, THEN last-used descending, then priority
as final tie-break) demands the opposite order: the code consults recency
only when both candidates carry a timestamp, and falls straight to priority
otherwise. -/
theorem claim_C3_counterexample :
    getSortedStrategies stC3 ("tgt") (buildStrategies optsC3)
      = [{ name := ("testId: x1"), q := LocQuery.testId ("x1"), priority := 0,
           successRate := mkRat 1 2, lastUsed := none },
         { name := ("text: OK"), q := LocQuery.text ("OK"), priority := 4,
           successRate := mkRat 1 2, lastUsed := some (JSTime.date 7) }]
    ∧ dateTimesOnly stC3 := by
  constructor <;> with_unfolding_all decide

/-- Claim C3 (amended): for every store whose last-used values are `Date`s
(every store the recorder produces; on imported string timestamps the real
comparator would throw), `getSortedStrategies` reorders the candidates before
any attempt by: success rate descending; then, when BOTH candidates carry a
last-used timestamp, last-used descending; otherwise original a-priori
priority ascending.  Untried candidates default to rate 0.5 with no
last-used.  Stated here as: the output is a permutation of the
statistics-augmented input, success rates are globally descending (so a
higher-rated candidate is attempted before every lower-rated one regardless
of priority), every adjacent pair satisfies the comparator (rate, then
both-present recency, else priority), and the names
`smartLocatorWithLearning` attempts form a prefix of the sorted order. -/
theorem claim_C3 (st : EnhancedState) (identifier : String)
    (strategies : List BuiltStrategy) (o : PageOracle) (now : Nat)
    (opts : SmartOptions) (s : BuiltStrategy)
    (hw : dateTimesOnly st) :
    (getSortedStrategies st identifier strategies).Perm
        (strategies.map (rankStrategy st identifier))
    ∧ (getSortedStrategies st identifier strategies).Pairwise
        (fun a b => b.successRate ≤ a.successRate)
    ∧ List.Chain' stratLE (getSortedStrategies st identifier strategies)
    ∧ (rankStrategy enhancedEmptyState identifier s).successRate = mkRat 1 2
    ∧ (rankStrategy enhancedEmptyState identifier s).lastUsed = none
    ∧ (∃ rest, (getSortedStrategies st opts.identifier (buildStrategies opts)).map
          (fun r => r.name)
        = (smartLocatorWithLearning o now st opts).attempted ++ rest) := by
  refine ⟨List.perm_insertionSort stratLE _, pairwise_rate_insertionSort _,
    chain_insertionSort _, rfl, rfl, ?_⟩
  rw [smartLocatorWithLearning, slwlAfterRanked_attempted]
  exact runRanked_attempted o now opts.identifier _ st

theorem claim_C3_witness :
    List.Chain' stratLE (getSortedStrategies stC3 ("tgt") (buildStrategies optsC3))
    ∧ (rankStrategy enhancedEmptyState ("tgt") stratC3B).successRate = mkRat 1 2 := by
  have h := claim_C3 stC3 ("tgt") (buildStrategies optsC3) oracleNone 0 optsC3
    stratC3B (by with_unfolding_all decide)
  exact ⟨h.2.2.1, h.2.2.2.1⟩

/-- Claim C7 counterexample: the three-way disjunction of the claim holds for this
pair (their text contents match exactly), yet `isSimilarElement` rejects it —
the code first requires the tag names to match, a condition the if-and-only-if
of the claim omits. -/
theorem claim_C7_counterexample :
    specSimilarityJudgement fpRefC7 fpCandC7
    ∧ isSimilarElement fpRefC7 fpCandC7 = false :=
  ⟨Or.inr (Or.inl rfl), by decide⟩

/-- Claim C7 (amended): `isSimilarElement` holds if and only if the tag names
match AND (at least two key attribute values are present on both and match
exactly, OR the text content matches exactly, OR the positions are within 50
pixels on both axes). -/
theorem claim_C7 (reference candidate : ElementFingerprint) :
    isSimilarElement reference candidate = true
      ↔ (reference.tag = candidate.tag
          ∧ specSimilarityJudgement reference candidate) := by
  have hpos : (match reference.position, candidate.position with
      | some p, some q =>
        decide (|p.1 - q.1| < mkRat 50 1) && decide (|p.2 - q.2| < mkRat 50 1)
      | _, _ => false) = true
      ↔ ∃ p q, reference.position = some p ∧ candidate.position = some q
          ∧ |p.1 - q.1| < mkRat 50 1 ∧ |p.2 - q.2| < mkRat 50 1 := by
    rcases hp : reference.position with _ | p <;>
      rcases hq : candidate.position with _ | q <;> simp [hp, hq]
  unfold isSimilarElement specSimilarityJudgement specAttributePairMatches
    specTextMatches specPositionWithin attributeMatches
  by_cases ht : reference.tag = candidate.tag
  · simp only [ht, bne_self_eq_false, Bool.false_eq_true, if_false, true_and,
      Bool.or_eq_true, decide_eq_true_eq, beq_iff_eq, List.countP_eq_length_filter,
      hpos, or_assoc]
  · have hb : (reference.tag != candidate.tag) = true := by
      simpa [bne_iff_ne] using ht
    simp [hb, ht]

/-- Claim C4 counterexample: both the general similarity technique and the
attribute-similarity technique would succeed here, with different results —
and `tryAIRecovery` returns the element of the general technique, attempting only
`[general]`: the fixed order is general first, not attribute-similarity
first as the claim states. -/
theorem claim_C4_counterexample :
    tryAIRecovery oracleC4 stC4 ("tgt")
        = (some (Locator.handle fpC4gen), [RecoveryTech.general])
    ∧ findByAttributeSimilarity oracleC4 stC4 ("tgt")
        = some (Locator.query (LocQuery.css ("input[class*=\"btn\"]")))
    ∧ Locator.handle fpC4gen
        ≠ Locator.query (LocQuery.css ("input[class*=\"btn\"]")) := by
  refine ⟨?_, ?_, ?_⟩ <;> with_unfolding_all decide

/-- Claim C4 (amended): the three recovery techniques run in the fixed order
general (fingerprint) similarity first, then attribute-similarity, then
positional-context, returning on the first success; recovery yields nothing
if and only if all three techniques fail. -/
theorem claim_C4 (o : PageOracle) (st : EnhancedState) (identifier : String) :
    ((tryAIRecovery o st identifier).1 = none
        ↔ (findByVisualSimilarity o st identifier = none
          ∧ findByAttributeSimilarity o st identifier = none
          ∧ findByPositionalContext o st identifier = none))
    ∧ (∀ l, findByVisualSimilarity o st identifier = some l →
        tryAIRecovery o st identifier = (some l, [RecoveryTech.general]))
    ∧ (∀ l, findByVisualSimilarity o st identifier = none →
        findByAttributeSimilarity o st identifier = some l →
        tryAIRecovery o st identifier
          = (some l, [RecoveryTech.general, RecoveryTech.attrSim]))
    ∧ (findByVisualSimilarity o st identifier = none →
        findByAttributeSimilarity o st identifier = none →
        tryAIRecovery o st identifier
          = (findByPositionalContext o st identifier,
             [RecoveryTech.general, RecoveryTech.attrSim, RecoveryTech.positional])) := by
  unfold tryAIRecovery
  rcases h1 : findByVisualSimilarity o st identifier with _ | l1 <;>
    rcases h2 : findByAttributeSimilarity o st identifier with _ | l2 <;>
      rcases h3 : findByPositionalContext o st identifier with _ | l3 <;>
        simp_all

theorem claim_C4_witness :
    tryAIRecovery oracleC4 stC4 ("tgt")
      = (some (Locator.handle fpC4gen), [RecoveryTech.general]) :=
  (claim_C4 oracleC4 stC4 ("tgt")).2.1 (Locator.handle fpC4gen)
    (by with_unfolding_all decide)

/-! ## Claim C5: behaviour after ranked candidates and recovery are exhausted -/

theorem recordFailure_preserves (st : EnhancedState) (identifier : String)
    (s : BuiltStrategy) :
    (recordFailure st identifier s).elementFingerprints = st.elementFingerprints
    ∧ (recordFailure st identifier s).aiLearningEnabled = st.aiLearningEnabled := by
  unfold recordFailure
  constructor <;> (split <;> first | rfl | (split <;> rfl))

theorem runRanked_all_fail (o : PageOracle) (now : Nat) (identifier : String)
    (h : ∀ q, o.visibleWithin q 3000 = false) :
    ∀ (l : List RankedStrategy) (st : EnhancedState),
      (runRanked o now identifier st l).2.2 = none
      ∧ (runRanked o now identifier st l).1.elementFingerprints
          = st.elementFingerprints
      ∧ (runRanked o now identifier st l).1.aiLearningEnabled
          = st.aiLearningEnabled := by
  intro l
  induction l with
  | nil => exact fun st => ⟨rfl, rfl, rfl⟩
  | cons s rest ih =>
    intro st
    have hv := h s.q
    simp only [runRanked, hv, Bool.false_eq_true, if_false]
    rcases ih (recordFailure st identifier s.toBuiltStrategy) with ⟨h1, h2, h3⟩
    rcases recordFailure_preserves st identifier s.toBuiltStrategy with ⟨p1, p2⟩
    exact ⟨h1, h2.trans p1, h3.trans p2⟩

theorem tryAIRecovery_no_fp (o : PageOracle) (st : EnhancedState)
    (identifier : String)
    (hfp : mapGet st.elementFingerprints identifier = none) :
    tryAIRecovery o st identifier
      = (none, [RecoveryTech.general, RecoveryTech.attrSim, RecoveryTech.positional]) := by
  have h1 : findByVisualSimilarity o st identifier = none := by
    unfold findByVisualSimilarity
    rw [hfp]
    by_cases hl : st.aiLearningEnabled <;> simp [hl]
  have h2 : findByAttributeSimilarity o st identifier = none := by
    unfold findByAttributeSimilarity
    rw [hfp]
  have h3 : findByPositionalContext o st identifier = none := by
    unfold findByPositionalContext
    rw [hfp]
  unfold tryAIRecovery
  rw [h1, h2, h3]

theorem smartLocator_all_fail (o : PageOracle) (opts : SmartOptions)
    (h : ∀ q, o.visibleWithin q 5000 = false) :
    (smartLocator o opts).res
      = Except.error (("❌ All strategies failed for ") ++ opts.identifier) := by
  simp only [smartLocator, tryQueries_all_fail o 5000 _ (fun q _ => h q)]

theorem findInput_all_fail (o : PageOracle) (opts : InputOptions)
    (h : ∀ q, o.visibleWithin q 5000 = false) :
    (findInput o opts).res
      = Except.error (("❌ Could not find input ") ++ opts.identifier) := by
  simp only [findInput, tryQueries_all_fail o 5000 _ (fun q _ => h q)]

theorem slwlFallback_all_fail (o : PageOracle) (st1 : EnhancedState)
    (attempted : List String) (recovery : List RecoveryTech) (opts : SmartOptions)
    (h5 : ∀ q, o.visibleWithin q 5000 = false) :
    (slwlFallback o st1 attempted recovery opts).result
      = Except.error (("❌ All strategies failed for ") ++ opts.identifier
          ++ (": Enhanced and original both failed"))
    ∧ (slwlFallback o st1 attempted recovery opts).fallbackUsed = true := by
  unfold slwlFallback
  by_cases hrt : opts.role.isSome && opts.text.isSome
  · simp only [hrt, if_true, smartLocator_all_fail o _ h5]
    exact ⟨trivial, trivial⟩
  · simp only [hrt, Bool.false_eq_true, if_false, findInput_all_fail o _ h5]
    exact ⟨trivial, trivial⟩

/-- Claim C5 (amended): for every store whose last-used values are `Date`s
(so the sort comparator cannot hit the `.getTime()` type error the model does
not represent), when every ranked candidate times out and no fingerprint is
stored for the identifier (so all of similarity recovery fails),
`smartLocatorWithLearning` does NOT fail immediately: it consults one further
mechanism, the original `SelfHealingLocator` fallback; only when that also
finds nothing does the call throw, with a message naming the target
identifier. -/
theorem claim_C5 (o : PageOracle) (now : Nat) (st : EnhancedState)
    (opts : SmartOptions)
    (hw : dateTimesOnly st)
    (h3 : ∀ q, o.visibleWithin q 3000 = false)
    (h5 : ∀ q, o.visibleWithin q 5000 = false)
    (hfp : mapGet st.elementFingerprints opts.identifier = none) :
    (smartLocatorWithLearning o now st opts).result
      = Except.error (("❌ All strategies failed for ") ++ opts.identifier
          ++ (": Enhanced and original both failed"))
    ∧ (smartLocatorWithLearning o now st opts).fallbackUsed = true
    ∧ ∃ pre post, (("❌ All strategies failed for ") ++ opts.identifier
          ++ (": Enhanced and original both failed"))
        = pre ++ opts.identifier ++ post := by
  obtain ⟨hnone, hfpP, _⟩ := runRanked_all_fail o now opts.identifier h3
    (getSortedStrategies st opts.identifier (buildStrategies opts)) st
  unfold smartLocatorWithLearning slwlAfterRanked
  rw [hnone]
  have hrec := tryAIRecovery_no_fp o
    (runRanked o now opts.identifier st
      (getSortedStrategies st opts.identifier (buildStrategies opts))).1
    opts.identifier (by rw [hfpP]; exact hfp)
  by_cases hl : (runRanked o now opts.identifier st
      (getSortedStrategies st opts.identifier (buildStrategies opts))).1.aiLearningEnabled
  · simp only [hl, if_true, hrec]
    refine ⟨(slwlFallback_all_fail o _ _ _ opts h5).1,
            (slwlFallback_all_fail o _ _ _ opts h5).2,
            ("❌ All strategies failed for "), (": Enhanced and original both failed"), rfl⟩
  · simp only [hl, Bool.false_eq_true, if_false]
    refine ⟨(slwlFallback_all_fail o _ _ _ opts h5).1,
            (slwlFallback_all_fail o _ _ _ opts h5).2,
            ("❌ All strategies failed for "), (": Enhanced and original both failed"), rfl⟩

/-- Claim C5 counterexample: every ranked candidate fails, similarity
recovery runs all three techniques and fails — yet the call still returns an
element (found by the original-self-healing fallback), contradicting the
claim that no element is ever returned and no further location mechanism is
consulted in that situation. -/
theorem claim_C5_counterexample :
    (smartLocatorWithLearning oracleC5 0 stC5 optsC5).attempted
        = [("role: button with text: OK"), ("text: OK")]
    ∧ (smartLocatorWithLearning oracleC5 0 stC5 optsC5).recovery
        = [RecoveryTech.general, RecoveryTech.attrSim, RecoveryTech.positional]
    ∧ (smartLocatorWithLearning oracleC5 0 stC5 optsC5).fallbackUsed = true
    ∧ (smartLocatorWithLearning oracleC5 0 stC5 optsC5).result
        = Except.ok (Locator.query (LocQuery.role ("button") ("OK"))) := by
  refine ⟨?_, ?_, ?_, ?_⟩ <;> with_unfolding_all decide

theorem claim_C5_witness :
    (smartLocatorWithLearning oracleNone 0 stC5 optsC5).result
      = Except.error (("❌ All strategies failed for ") ++ ("tgt")
          ++ (": Enhanced and original both failed"))
    ∧ (smartLocatorWithLearning oracleNone 0 stC5 optsC5).fallbackUsed = true := by
  have h := claim_C5 oracleNone 0 stC5 optsC5 (by with_unfolding_all decide)
    (fun q => rfl) (fun q => rfl) rfl
  exact ⟨h.1, h.2.1⟩

theorem map_eq_self_iff_forall {α : Type} (f : α → α) (l : List α) :
    l.map f = l ↔ ∀ x ∈ l, f x = x := by
  induction l with
  | nil => simp
  | cons a as ih =>
    simp only [List.map, List.cons.injEq, List.mem_cons]
    constructor
    · rintro ⟨h1, h2⟩
      intro x hx
      rcases hx with hx | hx
      · subst hx
        exact h1
      · exact (ih.mp h2) x hx
    · intro h
      exact ⟨h a (Or.inl rfl), ih.mpr (fun x hx => h x (Or.inr hx))⟩

theorem serializeStrategy_eq_self (iso : Nat → String) (r : LocatorStrategy) :
    serializeStrategy iso r = r ↔ ∀ ms, r.lastUsed ≠ some (JSTime.date ms) := by
  rcases r with ⟨nm, sel, pr, lu, sr⟩
  rcases lu with _ | t
  · simp [serializeStrategy]
  · rcases t with ms | s2
    · simp only [serializeStrategy, serializeTime, Option.map_some]
      constructor
      · intro h
        simp [serializeTime] at h
      · intro h
        exact absurd rfl (h ms)
    · simp [serializeStrategy, serializeTime]

/-- Claim C9 (amended): exporting and importing the learning data reproduces
the fingerprint store exactly and reproduces every Strategy Record field
except `lastUsed`, whose `Date` values come back as ISO strings; the strategy
store round-trips exactly if and only if no record carries a `Date`
last-used timestamp (in particular any identifier that ever recorded a
success breaks exact round-tripping). -/
theorem claim_C9 (iso : Nat → String) (st fresh : EnhancedState) :
    (importLearningData fresh (exportLearningData iso st)).elementFingerprints
        = st.elementFingerprints
    ∧ (importLearningData fresh (exportLearningData iso st)).strategyHistory
        = st.strategyHistory.map (fun p => (p.1, p.2.map (serializeStrategy iso)))
    ∧ ((importLearningData fresh (exportLearningData iso st)).strategyHistory
          = st.strategyHistory
        ↔ ∀ p ∈ st.strategyHistory, ∀ r ∈ p.2, ∀ ms,
            r.lastUsed ≠ some (JSTime.date ms)) := by
  refine ⟨rfl, rfl, ?_⟩
  show st.strategyHistory.map (fun p => (p.1, p.2.map (serializeStrategy iso)))
      = st.strategyHistory ↔ _
  rw [map_eq_self_iff_forall]
  constructor
  · intro h p hp r hr ms
    have hpair := h p hp
    have hmap : p.2.map (serializeStrategy iso) = p.2 := congrArg Prod.snd hpair
    have := (map_eq_self_iff_forall (serializeStrategy iso) p.2).mp hmap r hr
    exact (serializeStrategy_eq_self iso r).mp this ms
  · intro h p hp
    have hmap : p.2.map (serializeStrategy iso) = p.2 :=
      (map_eq_self_iff_forall (serializeStrategy iso) p.2).mpr
        (fun r hr => (serializeStrategy_eq_self iso r).mpr (fun ms => h p hp r hr ms))
    calc (p.1, p.2.map (serializeStrategy iso)) = (p.1, p.2) := by rw [hmap]
      _ = p := rfl

/-- Claim C9 counterexample: after one recorded success (so `lastUsed` holds
a `Date`), export followed by import does NOT reproduce the strategy store —
the `Date` comes back as a string — even though the fingerprint store is
reproduced exactly. -/
theorem claim_C9_counterexample :
    (importLearningData enhancedEmptyState
        (exportLearningData toISOStringModel stC9)).strategyHistory
      ≠ stC9.strategyHistory
    ∧ (importLearningData enhancedEmptyState
        (exportLearningData toISOStringModel stC9)).elementFingerprints
      = stC9.elementFingerprints := by
  refine ⟨?_, rfl⟩
  with_unfolding_all decide

